import Mathlib

/-
Verification of the Library-Backend book-catalog API.

Shallow embedding of the authoritative route implementations
(src/routes/bookRoutes.js, src/routes/authRoutes.js, the auth middleware
and the error handler) over explicit store states. Mongo ObjectIds are
modelled as naturals; JS `undefined` values are modelled as `Option`.
-/

namespace LibraryApi

/-- Mongo ObjectId, modelled as a natural number. -/
abbrev ObjectId := Nat

/-- A persisted book record (bookModel.js schema: title, author,
publishedYear, addedBy all required; addedBy is an ObjectId ref). -/
structure Book where
  bid : ObjectId
  title : String
  author : String
  publishedYear : Int
  addedBy : ObjectId
  deriving Repr, DecidableEq

/-- A persisted user record (userModel schema: unique username, hashed
password). -/
structure StoredUser where
  uid : ObjectId
  username : String
  password : String
  deriving Repr, DecidableEq

/-- The JWT claim payload issued at login: jwt.sign({ username: user.username }, ...).
It carries the username only; there is no id field in the payload. -/
structure TokenPayload where
  username : String
  deriving Repr, DecidableEq

/-- The `req.user` object the handlers read. The auth middleware assigns
`req.user = decoded` where `decoded` is the verified token payload, so a
handler reading `req.user._id` may find the property absent (undefined in
JS), modelled as `Option`. -/
structure ReqUser where
  idField : Option ObjectId
  username : String
  deriving Repr, DecidableEq

/-- Value of req.user as produced by the auth middleware from a decoded token
payload: the payload `{username, iat, exp}` has no `_id` property, so
`req.user._id` is undefined. -/
def reqUserOfPayload (p : TokenPayload) : ReqUser :=
  ⟨none, p.username⟩

/-- ObjectId.prototype.equals applied to a possibly-undefined argument:
`book.addedBy.equals(req.user._id)` is false when `req.user._id` is
undefined. -/
def objectIdEquals (a : ObjectId) (b : Option ObjectId) : Bool :=
  match b with
  | some x => a == x
  | none => false

/-- The book collection state. -/
abbrev BookStore := List Book

/-- Book.findById: first record with the given id. -/
def findById (s : BookStore) (i : ObjectId) : Option Book :=
  s.find? (fun b => b.bid == i)

/-- Book.findByIdAndUpdate: update the record(s) with the given id. -/
def findByIdAndUpdate (s : BookStore) (i : ObjectId) (f : Book → Book) : BookStore :=
  s.map (fun b => if b.bid == i then f b else b)

/-- Book.findByIdAndDelete: remove the record with the given id. -/
def findByIdAndDelete (s : BookStore) (i : ObjectId) : BookStore :=
  s.filter (fun b => b.bid != i)

/-- The user collection state. -/
abbrev UserStore := List StoredUser

/-- User.findOne({username}). -/
def findOneByUsername (s : UserStore) (u : String) : Option StoredUser :=
  s.find? (fun r => r.username == u)

/-- A JSON request body for the book routes, restricted to the schema
fields mongoose will accept in an update (non-schema keys are discarded by
strict mode). A missing key is `none`; a key bound to a value that fails
the corresponding express-validator check on type grounds is likewise
modelled as `none` for title/author (notEmpty fails on undefined) — for
publishedYear, a non-integer value is modelled as `none` since isInt
rejects it. -/
structure BookBody where
  title : Option String
  author : Option String
  publishedYear : Option Int
  addedBy : Option ObjectId
  deriving Repr, DecidableEq

/-- A field-tagged validation error as produced by errors.array(). -/
structure FieldError where
  field : String
  msg : String
  deriving Repr, DecidableEq

/-- body("title").notEmpty() — fails when the field is missing or empty. -/
def titleOk (b : BookBody) : Bool :=
  match b.title with
  | some t => t != ""
  | none => false

/-- body("author").notEmpty(). -/
def authorOk (b : BookBody) : Bool :=
  match b.author with
  | some a => a != ""
  | none => false

/-- body("publishedYear").isInt({ min: 1, max: currentYear }). -/
def yearOk (currentYear : Int) (b : BookBody) : Bool :=
  match b.publishedYear with
  | some y => 1 ≤ y && y ≤ currentYear
  | none => false

/-- validateBook: the chain of three checks for POST and PUT. -/
def validateBookErrors (currentYear : Int) (b : BookBody) : List FieldError :=
  (if titleOk b then [] else [⟨"title", "Title is required"⟩]) ++
  (if authorOk b then [] else [⟨"author", "Author is required"⟩]) ++
  (if yearOk currentYear b then [] else
    [⟨"publishedYear", "Published year must be a valid year"⟩])

/-- The optional validator chain used by PATCH: each field is validated
only when present. -/
def validatePatchErrors (currentYear : Int) (b : BookBody) : List FieldError :=
  (match b.title with
   | some t => if t != "" then [] else [⟨"title", "Title cannot be empty"⟩]
   | none => []) ++
  (match b.author with
   | some a => if a != "" then [] else [⟨"author", "Author cannot be empty"⟩]
   | none => []) ++
  (match b.publishedYear with
   | some y => if 1 ≤ y && y ≤ currentYear then [] else
       [⟨"publishedYear", "Published year must be a valid year"⟩]
   | none => [])

/-- The response a book-route handler produces. -/
inductive BookResult where
  /-- HTTP 400, the errors array from validationResult. -/
  | validationFailed (errs : List FieldError)
  /-- HTTP 400, "Invalid book ID" (ObjectId.isValid failed). -/
  | invalidId
  /-- HTTP 404, "Book not found". -/
  | notFound
  /-- HTTP 403, ownership rejection message. -/
  | forbidden (msg : String)
  /-- HTTP 201 with the created record. -/
  | created (b : Book)
  /-- HTTP 200 with the updated record. -/
  | ok (b : Book)
  /-- HTTP 200, "Book deleted successfully". -/
  | deleted
  /-- error forwarded to next(error): the error handler answers 500 for
  errors with no status of their own (e.g. mongoose ValidationError). -/
  | serverError
  deriving Repr, DecidableEq

/-- HTTP status of a book-route response. -/
def BookResult.status : BookResult → Nat
  | .validationFailed _ => 400
  | .invalidId => 400
  | .notFound => 404
  | .forbidden _ => 403
  | .created _ => 201
  | .ok _ => 200
  | .deleted => 200
  | .serverError => 500

/-- Mongoose $set of the schema fields of the body onto a record (keys absent
from the body leave the field untouched). -/
def applySet (b : BookBody) (r : Book) : Book :=
  { r with
    title := b.title.getD r.title
    author := b.author.getD r.author
    publishedYear := b.publishedYear.getD r.publishedYear
    addedBy := b.addedBy.getD r.addedBy }

/-- POST /books. Runs validateBook; then persists
`new Book({...req.body, addedBy: req.user._id})`. When `req.user._id` is
undefined, the required `addedBy` path fails mongoose validation at
save(), the error is forwarded to next(error), and the boundary answers
500. `freshId` is the store-generated id of the new document. -/
def createBook (currentYear : Int) (user : ReqUser) (body : BookBody)
    (freshId : ObjectId) (s : BookStore) : BookResult × BookStore :=
  if validateBookErrors currentYear body ≠ [] then
    (.validationFailed (validateBookErrors currentYear body), s)
  else
    match user.idField with
    | none => (.serverError, s)
    | some uid =>
      match body.title, body.author, body.publishedYear with
      | some t, some a, some y =>
        let b : Book := ⟨freshId, t, a, y, uid⟩
        (.created b, s ++ [b])
      | _, _, _ => (.serverError, s)

/-- GET /books/:id. `idParam = none` models a path segment that fails
mongoose.Types.ObjectId.isValid. -/
def getBookById (idParam : Option ObjectId) (s : BookStore) : BookResult :=
  match idParam with
  | none => .invalidId
  | some i =>
    match findById s i with
    | some b => .ok b
    | none => .notFound

/-- PUT /books/:id. Order as in the source: validateBook, ObjectId
validity, existence, ownership, then
findByIdAndUpdate(id, {...req.body, addedBy: req.user._id}, {new: true}). -/
def putBook (currentYear : Int) (user : ReqUser) (idParam : Option ObjectId)
    (body : BookBody) (s : BookStore) : BookResult × BookStore :=
  if validateBookErrors currentYear body ≠ [] then
    (.validationFailed (validateBookErrors currentYear body), s)
  else
    match idParam with
    | none => (.invalidId, s)
    | some i =>
      match findById s i with
      | none => (.notFound, s)
      | some book =>
        if objectIdEquals book.addedBy user.idField then
          match user.idField with
          | some uid =>
            let doc : BookBody := { body with addedBy := some uid }
            (.ok (applySet doc book), findByIdAndUpdate s i (applySet doc))
          | none => (.serverError, s)
        else
          (.forbidden "You can only update books you added", s)

/-- PATCH /books/:id. Order as in the source: optional validators,
ObjectId validity, existence, ownership, then
findByIdAndUpdate(id, { $set: req.body }, {new: true}) — the body is
written through $set with no field filtering at the route layer. -/
def patchBook (currentYear : Int) (user : ReqUser) (idParam : Option ObjectId)
    (body : BookBody) (s : BookStore) : BookResult × BookStore :=
  if validatePatchErrors currentYear body ≠ [] then
    (.validationFailed (validatePatchErrors currentYear body), s)
  else
    match idParam with
    | none => (.invalidId, s)
    | some i =>
      match findById s i with
      | none => (.notFound, s)
      | some book =>
        if objectIdEquals book.addedBy user.idField then
          (.ok (applySet body book), findByIdAndUpdate s i (applySet body))
        else
          (.forbidden "You can only update books you added", s)

/-- DELETE /books/:id. Order as in the source: ObjectId validity,
existence, ownership, then findByIdAndDelete. -/
def deleteBook (user : ReqUser) (idParam : Option ObjectId)
    (s : BookStore) : BookResult × BookStore :=
  match idParam with
  | none => (.invalidId, s)
  | some i =>
    match findById s i with
    | none => (.notFound, s)
    | some book =>
      if objectIdEquals book.addedBy user.idField then
        (.deleted, findByIdAndDelete s i)
      else
        (.forbidden "You can only delete books you added", s)

/-- The response an auth-route handler produces. -/
inductive AuthResult where
  /-- HTTP 400, the errors array from validationResult. -/
  | validationFailed (errs : List FieldError)
  /-- HTTP 400, "Username already exists" (both the advisory lookup and the
  caught duplicate-key error produce this same response). -/
  | duplicateUsername
  /-- HTTP 201, "User registered successfully". -/
  | registered
  /-- HTTP 400, "Invalid credentials" (text body via res.send). -/
  | invalidCredentials
  /-- HTTP 200 with the token; the token is represented by its signed payload. -/
  | token (p : TokenPayload)
  /-- error forwarded to next(error). -/
  | serverError
  deriving Repr, DecidableEq

/-- HTTP status of an auth-route response. -/
def AuthResult.status : AuthResult → Nat
  | .validationFailed _ => 400
  | .duplicateUsername => 400
  | .registered => 201
  | .invalidCredentials => 400
  | .token _ => 200
  | .serverError => 500

/-- A rendered HTTP response: status code plus body text (JSON bodies are
rendered to a canonical string). -/
structure HttpResponse where
  status : Nat
  body : String
  deriving Repr, DecidableEq

/-- Canonical rendering of an errors.array() payload. -/
def renderErrors (es : List FieldError) : String :=
  String.intercalate "; " (es.map (fun e => e.field ++ ": " ++ e.msg))

/-- The wire response of POST /auth/login for each outcome of the handler
(the two credential-failure paths share the single statement
res.status(400).send("Invalid credentials")). -/
def renderAuth : AuthResult → HttpResponse
  | .validationFailed es => ⟨400, renderErrors es⟩
  | .duplicateUsername => ⟨400, "Username already exists"⟩
  | .registered => ⟨201, "User registered successfully"⟩
  | .invalidCredentials => ⟨400, "Invalid credentials"⟩
  | .token p => ⟨200, "token for " ++ p.username⟩
  | .serverError => ⟨500, "Internal Server Error"⟩

/-- POST /auth/register. `hash` abstracts bcrypt.hash with its salt fixed
by the call; `freshId` is the store-generated user id. The advisory
uniqueness lookup runs against `checkStore`, the save against
`insertStore`: in a sequential run the two coincide, and a concurrent
registration between the lookup and the save is modelled by an
`insertStore` that already holds the username, in which case the unique index of the store raises the duplicate-key error (code 11000) that the catch
block normalizes to the same 400 response. Returns the response and the
store state after the save. -/
def register (hash : String → String) (freshId : ObjectId)
    (checkStore insertStore : UserStore) (username password : String) :
    AuthResult × UserStore :=
  if username.length < 6 || password.length < 8 then
    (.validationFailed
      ((if username.length < 6 then
          [⟨"username", "Username must be at least 6 characters long"⟩] else []) ++
       (if password.length < 8 then
          [⟨"password", "Password must be at least 8 characters long"⟩] else [])),
     insertStore)
  else
    match findOneByUsername checkStore username with
    | some _ => (.duplicateUsername, insertStore)
    | none =>
      match findOneByUsername insertStore username with
      | some _ => (.duplicateUsername, insertStore)
      | none => (.registered, insertStore ++ [⟨freshId, username, hash password⟩])

/-- POST /auth/login. `compare` abstracts bcrypt.compare(plain, hash). The
success path signs `{ username: user.username }`. -/
def login (compare : String → String → Bool) (s : UserStore)
    (username password : String) : AuthResult :=
  if username == "" || password == "" then
    .validationFailed
      ((if username == "" then [⟨"username", "Username is required"⟩] else []) ++
       (if password == "" then [⟨"password", "Password is required"⟩] else []))
  else
    match findOneByUsername s username with
    | some user =>
      if compare password user.password then .token ⟨user.username⟩
      else .invalidCredentials
    | none => .invalidCredentials

/-- The outcome of the auth middleware on a request. -/
inductive AuthGate where
  /-- HTTP 401, "No token, authorization denied". -/
  | missingToken
  /-- HTTP 401, "Invalid token format". -/
  | malformedToken
  /-- HTTP 403, "Token is not valid". -/
  | invalidToken
  /-- execution continues into the handler with `req.user = decoded`. -/
  | authed (p : TokenPayload)
  deriving Repr, DecidableEq

/-- HTTP status of a middleware rejection (none when the request is passed
through to the handler). -/
def AuthGate.status : AuthGate → Option Nat
  | .missingToken => some 401
  | .malformedToken => some 401
  | .invalidToken => some 403
  | .authed _ => none

/-- JS String.prototype.startsWith, computed over the character lists. -/
def jsStartsWith (s pre : String) : Bool :=
  pre.toList.isPrefixOf s.toList

/-- JS String.prototype.split at a separator character, over the character
list: every occurrence of the separator starts a new chunk. -/
def splitChars (sep : Char) : List Char → List (List Char)
  | [] => [[]]
  | c :: cs =>
    match splitChars sep cs with
    | r :: rs => if c == sep then [] :: r :: rs else (c :: r) :: rs
    | [] => [[]]

/-- Value of authHeader.split(char 32)[1]: the chunk between the first and
second space of the header (JS yields undefined past the end, which
jwt.verify then rejects; that cannot occur here since the header was just
checked to contain a space). -/
def bearerToken (h : String) : String :=
  (((splitChars ' ' h.toList).map (fun l => String.mk l)).getD 1 "")

/-- The auth middleware. `verify` abstracts jwt.verify against the shared
secret (`none` = signature or expiry failure, in which case jwt.verify
throws). `header` is req.header("Authorization"); `none` models an absent
header, and a present empty string is falsy in JS, so the
`if (!authHeader)` guard also fires on it. -/
def authMiddleware (verify : String → Option TokenPayload)
    (header : Option String) : AuthGate :=
  match header with
  | none => .missingToken
  | some h =>
    if h == "" then .missingToken
    else if ! jsStartsWith h "Bearer " then .malformedToken
    else
      match verify (bearerToken h) with
      | some p => .authed p
      | none => .invalidToken

/-- An error object reaching the boundary error handler: a possibly-absent
`.status` tag, a message (the empty string models a falsy message), and a
stack trace. -/
structure AppError where
  stat : Option Nat
  message : String
  stack : String
  deriving Repr, DecidableEq

/-- The JSON body the error handler sends. -/
structure ErrBody where
  message : String
  stat : Nat
  stack : Option String
  deriving Repr, DecidableEq

/-- The boundary error handler (middleware/errorHandler.js):
status = err.status || 500, message = err.message || "Internal Server
Error", and the stack is attached only when NODE_ENV === "development". -/
def errorHandler (isDevelopment : Bool) (e : AppError) : ErrBody :=
  let statusCode := e.stat.getD 500
  { message := if e.message == "" then "Internal Server Error" else e.message
    stat := statusCode
    stack := if isDevelopment then some e.stack else none }

/-- ObjectId.prototype.equals is false whenever the argument is undefined
or a different id. -/
theorem objectIdEquals_eq_false_of_ne {a : ObjectId} {b : Option ObjectId}
    (h : b ≠ some a) : objectIdEquals a b = false := by
  cases b with
  | none => rfl
  | some x =>
    have hxa : a ≠ x := fun hax => h (by rw [hax])
    simp [objectIdEquals, hxa]

/-- C1: the register → login → Create pipeline cannot make addedBy the id
of the acting user. The token issued at login carries only the username,
the middleware exposes that payload as req.user, and Create reads the
undefined req.user._id, so the save fails the required addedBy validation
and the boundary answers 500; no record is persisted and GetById finds
nothing. The code contradicts the claim (and its own scenario): the token
payload lacks the user id the book routes rely on. -/
theorem c1_create_with_login_token_cannot_set_addedBy :
    (register (fun _ => "hashedpw") 7 [] [] "alice01" "secretpw").1 = .registered ∧
    login (fun p h => p == "secretpw" && h == "hashedpw")
        (register (fun _ => "hashedpw") 7 [] [] "alice01" "secretpw").2
        "alice01" "secretpw" = .token ⟨"alice01"⟩ ∧
    authMiddleware (fun t => if t == "signedtok" then some ⟨"alice01"⟩ else none)
        (some "Bearer signedtok") = .authed ⟨"alice01"⟩ ∧
    (reqUserOfPayload ⟨"alice01"⟩).idField = none ∧
    createBook 2025 (reqUserOfPayload ⟨"alice01"⟩)
        ⟨some "Go", some "X", some 2020, none⟩ 42 [] = (.serverError, []) ∧
    BookResult.serverError.status = 500 ∧
    getBookById (some 42) [] = .notFound := by
  exact ⟨rfl, rfl, rfl, rfl, rfl, rfl, rfl⟩

/-- C2 counterexample: a non-owner PUT on an existing record with an
invalid body is answered by the validation layer (400), not by the
ownership layer (403): the claim that a non-owner Replace always returns
ForbiddenError is false as stated. -/
theorem c2_counterexample_nonowner_put_validation_first :
    (putBook 2025 ⟨some 2, "bob"⟩ (some 5)
        ⟨some "", some "A", some 2000, none⟩ [⟨5, "T", "A", 2000, 1⟩]).1
      = .validationFailed [⟨"title", "Title is required"⟩] ∧
    ((putBook 2025 ⟨some 2, "bob"⟩ (some 5)
        ⟨some "", some "A", some 2000, none⟩ [⟨5, "T", "A", 2000, 1⟩]).1).status ≠ 403 := by
  exact ⟨rfl, by decide⟩

/-- C2 (amended): an acting identity whose id differs from addedBy of an
existing record never mutates or removes the record through PUT, PATCH or
DELETE; DELETE always answers 403, and PUT and PATCH answer 403 whenever
the request body passes field validation (otherwise the validation layer
answers 400 first, still leaving the store untouched). -/
theorem c2_nonowner_mutations_forbidden (cy : Int) (u : ReqUser)
    (i : ObjectId) (body : BookBody) (s : BookStore) (book : Book)
    (hfind : findById s i = some book)
    (hown : u.idField ≠ some book.addedBy) :
    (putBook cy u (some i) body s).2 = s ∧
    (patchBook cy u (some i) body s).2 = s ∧
    deleteBook u (some i) s = (.forbidden "You can only delete books you added", s) ∧
    (validateBookErrors cy body = [] →
      putBook cy u (some i) body s
        = (.forbidden "You can only update books you added", s)) ∧
    (validatePatchErrors cy body = [] →
      patchBook cy u (some i) body s
        = (.forbidden "You can only update books you added", s)) := by
  have hne := objectIdEquals_eq_false_of_ne hown
  refine ⟨?_, ?_, ?_, ?_, ?_⟩
  · by_cases hv : validateBookErrors cy body = []
    · simp [putBook, hv, hfind, hne]
    · simp [putBook, hv, hfind, hne]
  · by_cases hv : validatePatchErrors cy body = []
    · simp [patchBook, hv, hfind, hne]
    · simp [patchBook, hv, hfind, hne]
  · simp [deleteBook, hfind, hne]
  · intro hv
    simp [putBook, hv, hfind, hne]
  · intro hv
    simp [patchBook, hv, hfind, hne]

/-- Witness for the amended C2 theorem at concrete inputs. -/
theorem c2_witness :
    putBook 2025 ⟨some 2, "bob"⟩ (some 5) ⟨some "T2", some "A2", some 2001, none⟩
        [⟨5, "T", "A", 2000, 1⟩]
      = (.forbidden "You can only update books you added", [⟨5, "T", "A", 2000, 1⟩]) ∧
    patchBook 2025 ⟨some 2, "bob"⟩ (some 5) ⟨some "T2", none, none, none⟩
        [⟨5, "T", "A", 2000, 1⟩]
      = (.forbidden "You can only update books you added", [⟨5, "T", "A", 2000, 1⟩]) ∧
    deleteBook ⟨some 2, "bob"⟩ (some 5) [⟨5, "T", "A", 2000, 1⟩]
      = (.forbidden "You can only delete books you added", [⟨5, "T", "A", 2000, 1⟩]) := by
  refine ⟨(c2_nonowner_mutations_forbidden 2025 ⟨some 2, "bob"⟩ 5
            ⟨some "T2", some "A2", some 2001, none⟩ [⟨5, "T", "A", 2000, 1⟩]
            ⟨5, "T", "A", 2000, 1⟩ rfl (by decide)).2.2.2.1 rfl,
         (c2_nonowner_mutations_forbidden 2025 ⟨some 2, "bob"⟩ 5
            ⟨some "T2", none, none, none⟩ [⟨5, "T", "A", 2000, 1⟩]
            ⟨5, "T", "A", 2000, 1⟩ rfl (by decide)).2.2.2.2 rfl,
         (c2_nonowner_mutations_forbidden 2025 ⟨some 2, "bob"⟩ 5
            ⟨some "T2", none, none, none⟩ [⟨5, "T", "A", 2000, 1⟩]
            ⟨5, "T", "A", 2000, 1⟩ rfl (by decide)).2.2.1⟩

/-- C3 counterexample: Replace on a well-formed id that matches no record,
with a body that fails validation, is answered 400 by the validation
layer, not 404: the universal claim that a nonexistent id always yields
NotFoundError fails for Replace. -/
theorem c3_counterexample_put_validation_before_existence :
    (putBook 2025 ⟨some 2, "bob"⟩ (some 9)
        ⟨some "", some "A", some 2000, none⟩ []).1
      = .validationFailed [⟨"title", "Title is required"⟩] ∧
    ((putBook 2025 ⟨some 2, "bob"⟩ (some 9)
        ⟨some "", some "A", some 2000, none⟩ []).1).status ≠ 404 := by
  exact ⟨rfl, by decide⟩

/-- C3 (amended): on a well-formed id matching no record, Delete always
answers 404 for every acting identity, and Replace and Merge answer 404
for every acting identity whenever the body passes validation (a body that
fails validation is answered 400 first); in no case does any of the three
answer 403 — the existence check precedes the ownership check. -/
theorem c3_nonexistent_id_notFound (cy : Int) (u : ReqUser) (i : ObjectId)
    (body : BookBody) (s : BookStore)
    (hfind : findById s i = none) :
    deleteBook u (some i) s = (.notFound, s) ∧
    (validateBookErrors cy body = [] →
      putBook cy u (some i) body s = (.notFound, s)) ∧
    (validatePatchErrors cy body = [] →
      patchBook cy u (some i) body s = (.notFound, s)) ∧
    ((putBook cy u (some i) body s).1).status ≠ 403 ∧
    ((patchBook cy u (some i) body s).1).status ≠ 403 ∧
    ((deleteBook u (some i) s).1).status ≠ 403 := by
  refine ⟨?_, ?_, ?_, ?_, ?_, ?_⟩
  · simp [deleteBook, hfind]
  · intro hv; simp [putBook, hv, hfind]
  · intro hv; simp [patchBook, hv, hfind]
  · by_cases hv : validateBookErrors cy body = []
    · simp [putBook, hv, hfind, BookResult.status]
    · simp [putBook, hv, hfind, BookResult.status]
  · by_cases hv : validatePatchErrors cy body = []
    · simp [patchBook, hv, hfind, BookResult.status]
    · simp [patchBook, hv, hfind, BookResult.status]
  · simp [deleteBook, hfind, BookResult.status]

/-- Witness for the amended C3 theorem at concrete inputs. -/
theorem c3_witness :
    putBook 2025 ⟨some 2, "bob"⟩ (some 9) ⟨some "T", some "A", some 2000, none⟩ []
      = (.notFound, []) ∧
    patchBook 2025 ⟨some 2, "bob"⟩ (some 9) ⟨some "T", none, none, none⟩ []
      = (.notFound, []) ∧
    deleteBook ⟨some 2, "bob"⟩ (some 9) [] = (.notFound, []) := by
  have h1 := c3_nonexistent_id_notFound 2025 ⟨some 2, "bob"⟩ 9
      ⟨some "T", some "A", some 2000, none⟩ [] rfl
  have h2 := c3_nonexistent_id_notFound 2025 ⟨some 2, "bob"⟩ 9
      ⟨some "T", none, none, none⟩ [] rfl
  exact ⟨h1.2.1 rfl, h2.2.2.1 rfl, h1.1⟩

/-- C4: a login naming an unknown username and a login naming a stored
username whose password fails the hash comparison produce the very same
response, status 400 with body "Invalid credentials" — no
username-enumeration signal. -/
theorem c4_login_failures_indistinguishable
    (compare : String → String → Bool) (s : UserStore)
    (u1 p1 u2 p2 : String) (user : StoredUser)
    (h1u : u1 ≠ "") (h1p : p1 ≠ "")
    (h2u : u2 ≠ "") (h2p : p2 ≠ "")
    (habsent : findOneByUsername s u1 = none)
    (hfound : findOneByUsername s u2 = some user)
    (hcmp : compare p2 user.password = false) :
    login compare s u1 p1 = .invalidCredentials ∧
    login compare s u2 p2 = .invalidCredentials ∧
    renderAuth (login compare s u1 p1) = renderAuth (login compare s u2 p2) ∧
    renderAuth (login compare s u1 p1) = ⟨400, "Invalid credentials"⟩ := by
  have e1 : login compare s u1 p1 = .invalidCredentials := by
    simp [login, h1u, h1p, habsent]
  have e2 : login compare s u2 p2 = .invalidCredentials := by
    simp [login, h2u, h2p, hfound, hcmp]
  refine ⟨e1, e2, by rw [e1, e2], by rw [e1]; rfl⟩

/-- Witness for the C4 theorem at concrete inputs. -/
theorem c4_witness :
    login (fun p h => p == "rightpw1" && h == "H") [⟨1, "alice01", "H"⟩]
        "nobody" "x" = .invalidCredentials ∧
    login (fun p h => p == "rightpw1" && h == "H") [⟨1, "alice01", "H"⟩]
        "alice01" "wrongpw1" = .invalidCredentials := by
  have h := c4_login_failures_indistinguishable
      (fun p h => p == "rightpw1" && h == "H") [⟨1, "alice01", "H"⟩]
      "nobody" "x" "alice01" "wrongpw1" ⟨1, "alice01", "H"⟩
      (by decide) (by decide) (by decide) (by decide) rfl rfl rfl
  exact ⟨h.1, h.2.1⟩

/-- C5 counterexample: an Authorization header that is present but empty
does not start with the Bearer scheme, yet the middleware answers with the
missing-token response, not the malformed-token one: the empty string is
falsy in JS, so the absence guard fires first. -/
theorem c5_counterexample_empty_header :
    authMiddleware (fun _ => none) (some "") = .missingToken ∧
    AuthGate.missingToken ≠ .malformedToken := by
  exact ⟨rfl, by decide⟩

/-- C5 (amended): an absent header — or a present but empty one — is
rejected 401 with the missing-token response; a present non-empty header
not starting with the literal scheme is rejected 401 with the
malformed-token response; a token failing verification is rejected 403,
distinguished from the 401 cases; on successful verification the decoded
payload becomes the authenticated identity and execution continues. -/
theorem c5_gate_classification (vf : String → Option TokenPayload)
    (h : String) (p : TokenPayload) :
    authMiddleware vf none = .missingToken ∧
    AuthGate.missingToken.status = some 401 ∧
    authMiddleware vf (some "") = .missingToken ∧
    (h ≠ "" → jsStartsWith h "Bearer " = false →
      authMiddleware vf (some h) = .malformedToken) ∧
    AuthGate.malformedToken.status = some 401 ∧
    (jsStartsWith h "Bearer " = true → vf (bearerToken h) = none →
      authMiddleware vf (some h) = .invalidToken) ∧
    AuthGate.invalidToken.status = some 403 ∧
    (jsStartsWith h "Bearer " = true → vf (bearerToken h) = some p →
      authMiddleware vf (some h) = .authed p) := by
  have hbe : ∀ hs : String, jsStartsWith hs "Bearer " = true → hs ≠ "" := by
    intro hs hsw he
    subst he
    exact absurd hsw (by decide)
  refine ⟨rfl, rfl, rfl, ?_, rfl, ?_, rfl, ?_⟩
  · intro hne hsw
    simp [authMiddleware, hne, hsw]
  · intro hsw hv
    simp [authMiddleware, hbe h hsw, hsw, hv]
  · intro hsw hv
    simp [authMiddleware, hbe h hsw, hsw, hv]

/-- Witness for the amended C5 theorem at concrete inputs. -/
theorem c5_witness :
    authMiddleware (fun t => if t == "tok1" then some ⟨"user01"⟩ else none)
        none = .missingToken ∧
    authMiddleware (fun t => if t == "tok1" then some ⟨"user01"⟩ else none)
        (some "Basic abc") = .malformedToken ∧
    authMiddleware (fun t => if t == "tok1" then some ⟨"user01"⟩ else none)
        (some "Bearer bad") = .invalidToken ∧
    authMiddleware (fun t => if t == "tok1" then some ⟨"user01"⟩ else none)
        (some "Bearer tok1") = .authed ⟨"user01"⟩ := by
  have h1 := c5_gate_classification
      (fun t => if t == "tok1" then some ⟨"user01"⟩ else none) "Basic abc" ⟨"user01"⟩
  have h2 := c5_gate_classification
      (fun t => if t == "tok1" then some ⟨"user01"⟩ else none) "Bearer bad" ⟨"user01"⟩
  have h3 := c5_gate_classification
      (fun t => if t == "tok1" then some ⟨"user01"⟩ else none) "Bearer tok1" ⟨"user01"⟩
  exact ⟨h1.1, h1.2.2.2.1 (by decide) (by decide),
         h2.2.2.2.2.2.1 (by decide) rfl,
         h3.2.2.2.2.2.2.2 (by decide) rfl⟩

/-- C6 counterexample: a second Register naming a stored username but
supplying a password that fails the length validation is answered by the
validation layer, not with the duplicate-username response — the claim
fails for passwords shorter than 8 characters. -/
theorem c6_counterexample_short_password_on_duplicate :
    register (fun _ => "G") 2 [⟨1, "alice01", "H"⟩] [⟨1, "alice01", "H"⟩]
        "alice01" "short"
      = (.validationFailed
          [⟨"password", "Password must be at least 8 characters long"⟩],
         [⟨1, "alice01", "H"⟩]) ∧
    AuthResult.validationFailed
        [⟨"password", "Password must be at least 8 characters long"⟩]
      ≠ .duplicateUsername := by
  exact ⟨rfl, by decide⟩

/-- C6 (amended): for a username already in the credential store and any
password passing the length validation, Register answers the
duplicate-username 400 and leaves the store unchanged; and when the
advisory lookup saw no duplicate but the store holds the username at
insert time (the race), the caught duplicate-key error is normalized to
the very same response. -/
theorem c6_duplicate_register_normalized (hash : String → String)
    (fid : ObjectId) (cs is2 : UserStore) (u p : String)
    (hul : 6 ≤ u.length) (hpl : 8 ≤ p.length) :
    (∀ r, findOneByUsername cs u = some r →
      register hash fid cs is2 u p = (.duplicateUsername, is2)) ∧
    (findOneByUsername cs u = none →
      ∀ r, findOneByUsername is2 u = some r →
        register hash fid cs is2 u p = (.duplicateUsername, is2)) ∧
    renderAuth .duplicateUsername = ⟨400, "Username already exists"⟩ := by
  have h6 : ¬ u.length < 6 := by omega
  have h8 : ¬ p.length < 8 := by omega
  refine ⟨?_, ?_, rfl⟩
  · intro r hr
    simp [register, h6, h8, hr]
  · intro hnone r hr
    simp [register, h6, h8, hnone, hr]

/-- Witness for the amended C6 theorem at concrete inputs: a sequential
duplicate and a raced duplicate both yield the same 400. -/
theorem c6_witness :
    register (fun _ => "G") 2 [⟨1, "alice01", "H"⟩] [⟨1, "alice01", "H"⟩]
        "alice01" "password1" = (.duplicateUsername, [⟨1, "alice01", "H"⟩]) ∧
    register (fun _ => "G") 2 [] [⟨1, "alice01", "H"⟩]
        "alice01" "password1" = (.duplicateUsername, [⟨1, "alice01", "H"⟩]) := by
  have h := c6_duplicate_register_normalized (fun _ => "G") 2
      [⟨1, "alice01", "H"⟩] [⟨1, "alice01", "H"⟩] "alice01" "password1"
      (by decide) (by decide)
  have h2 := c6_duplicate_register_normalized (fun _ => "G") 2
      [] [⟨1, "alice01", "H"⟩] "alice01" "password1"
      (by decide) (by decide)
  exact ⟨h.1 ⟨1, "alice01", "H"⟩ rfl, h2.2.1 rfl ⟨1, "alice01", "H"⟩ rfl⟩

/-- C7: whenever the publishedYear of the body fails the isInt range check
(missing, non-integer, or outside 1..currentYear), Create and Replace
answer 400 with the field-tagged year message and do not touch the store;
and whenever a supplied publishedYear fails the check, Merge does the
same. -/
theorem c7_bad_year_validation (cy : Int) (u : ReqUser) (body : BookBody)
    (idp : Option ObjectId) (fid : ObjectId) (s : BookStore)
    (hy : yearOk cy body = false) :
    createBook cy u body fid s
      = (.validationFailed (validateBookErrors cy body), s) ∧
    putBook cy u idp body s
      = (.validationFailed (validateBookErrors cy body), s) ∧
    (BookResult.validationFailed (validateBookErrors cy body)).status = 400 ∧
    (⟨"publishedYear", "Published year must be a valid year"⟩ : FieldError)
        ∈ validateBookErrors cy body ∧
    (∀ y, body.publishedYear = some y →
      patchBook cy u idp body s
        = (.validationFailed (validatePatchErrors cy body), s) ∧
      (⟨"publishedYear", "Published year must be a valid year"⟩ : FieldError)
          ∈ validatePatchErrors cy body) := by
  have hmem : (⟨"publishedYear", "Published year must be a valid year"⟩ : FieldError)
      ∈ validateBookErrors cy body := by
    simp [validateBookErrors, hy]
  have hne : validateBookErrors cy body ≠ [] := by
    intro h0
    rw [h0] at hmem
    exact absurd hmem (List.not_mem_nil _)
  refine ⟨by simp [createBook, hne], by simp [putBook, hne], rfl, hmem, ?_⟩
  intro y hyy
  have hyf : (decide (1 ≤ y) && decide (y ≤ cy)) = false := by
    simpa [yearOk, hyy] using hy
  have hpmem : (⟨"publishedYear", "Published year must be a valid year"⟩ : FieldError)
      ∈ validatePatchErrors cy body := by
    simp [validatePatchErrors, hyy, hyf]
  have hpne : validatePatchErrors cy body ≠ [] := by
    intro h0
    rw [h0] at hpmem
    exact absurd hpmem (List.not_mem_nil _)
  exact ⟨by simp [patchBook, hpne], hpmem⟩

/-- Witness for the C7 theorem at concrete inputs (a future year for
Create and Merge, year zero for Replace). -/
theorem c7_witness :
    createBook 2025 ⟨some 1, "alice"⟩ ⟨some "T", some "A", some 3000, none⟩ 9 []
      = (.validationFailed
          [⟨"publishedYear", "Published year must be a valid year"⟩], []) ∧
    putBook 2025 ⟨some 1, "alice"⟩ (some 5) ⟨some "T", some "A", some 0, none⟩ []
      = (.validationFailed
          [⟨"publishedYear", "Published year must be a valid year"⟩], []) ∧
    patchBook 2025 ⟨some 1, "alice"⟩ (some 5) ⟨none, none, some 3000, none⟩ []
      = (.validationFailed
          [⟨"publishedYear", "Published year must be a valid year"⟩], []) := by
  have h1 := c7_bad_year_validation 2025 ⟨some 1, "alice"⟩
      ⟨some "T", some "A", some 3000, none⟩ (some 5) 9 [] rfl
  have h2 := c7_bad_year_validation 2025 ⟨some 1, "alice"⟩
      ⟨some "T", some "A", some 0, none⟩ (some 5) 9 [] rfl
  have h3 := c7_bad_year_validation 2025 ⟨some 1, "alice"⟩
      ⟨none, none, some 3000, none⟩ (some 5) 9 [] rfl
  exact ⟨h1.1, h2.2.1, (h3.2.2.2.2 3000 rfl).1⟩

/-- C8 counterexample: the owner (acting id 1) issues a successful Merge
whose body carries addedBy 2; the stored record now has addedBy 2, not the
id of the acting user — addedBy is not reset on every update. -/
theorem c8_counterexample_patch_body_addedBy :
    patchBook 2025 ⟨some 1, "alice"⟩ (some 5) ⟨none, none, none, some 2⟩
        [⟨5, "T", "A", 2000, 1⟩]
      = (.ok ⟨5, "T", "A", 2000, 2⟩, [⟨5, "T", "A", 2000, 2⟩]) ∧
    (⟨5, "T", "A", 2000, 2⟩ : Book).addedBy ≠ (1 : ObjectId) := by
  exact ⟨rfl, by decide⟩

/-- C8 (amended): Replace always resets addedBy to the id of the acting
user; Merge leaves addedBy equal to the id of the acting user whenever the
body does not supply an addedBy key (the ownership check guarantees the
stored value already equals that id), but a body-supplied addedBy is
written verbatim instead. -/
theorem c8_addedBy_reset_on_update (cy : Int) (uid : ObjectId) (u : ReqUser)
    (i : ObjectId) (body : BookBody) (s : BookStore) (book : Book)
    (hu : u.idField = some uid)
    (hfind : findById s i = some book)
    (hown : book.addedBy = uid) :
    (validateBookErrors cy body = [] →
      putBook cy u (some i) body s
        = (.ok (applySet { body with addedBy := some uid } book),
           findByIdAndUpdate s i (applySet { body with addedBy := some uid })) ∧
      (applySet { body with addedBy := some uid } book).addedBy = uid) ∧
    (validatePatchErrors cy body = [] → body.addedBy = none →
      patchBook cy u (some i) body s
        = (.ok (applySet body book), findByIdAndUpdate s i (applySet body)) ∧
      (applySet body book).addedBy = uid) := by
  have heq : objectIdEquals book.addedBy u.idField = true := by
    simp [objectIdEquals, hu, hown]
  constructor
  · intro hv
    constructor
    · simp [putBook, hv, hfind, hu, objectIdEquals, hown]
    · simp [applySet]
  · intro hv hnone
    constructor
    · simp [patchBook, hv, hfind, heq]
    · simp [applySet, hnone, hown]

/-- Witness for the amended C8 theorem at concrete inputs: the PUT body
even carries a foreign addedBy, which the handler overrides with the id of
the acting user; the PATCH body has no addedBy key and the result keeps
the id of the acting user. -/
theorem c8_witness :
    putBook 2025 ⟨some 1, "alice"⟩ (some 5) ⟨some "T2", some "A2", some 2001, some 9⟩
        [⟨5, "T", "A", 2000, 1⟩]
      = (.ok ⟨5, "T2", "A2", 2001, 1⟩, [⟨5, "T2", "A2", 2001, 1⟩]) ∧
    patchBook 2025 ⟨some 1, "alice"⟩ (some 5) ⟨some "T3", none, none, none⟩
        [⟨5, "T", "A", 2000, 1⟩]
      = (.ok ⟨5, "T3", "A", 2000, 1⟩, [⟨5, "T3", "A", 2000, 1⟩]) := by
  have h := c8_addedBy_reset_on_update 2025 1 ⟨some 1, "alice"⟩ 5
      ⟨some "T2", some "A2", some 2001, some 9⟩ [⟨5, "T", "A", 2000, 1⟩]
      ⟨5, "T", "A", 2000, 1⟩ rfl rfl rfl
  have h2 := c8_addedBy_reset_on_update 2025 1 ⟨some 1, "alice"⟩ 5
      ⟨some "T3", none, none, none⟩ [⟨5, "T", "A", 2000, 1⟩]
      ⟨5, "T", "A", 2000, 1⟩ rfl rfl rfl
  exact ⟨(h.1 rfl).1, (h2.2 rfl rfl).1⟩

/-- C9 counterexample: an unexpected error (no status of its own) carrying
a store-connectivity message is sent back with that very message in the
body, not with a generic one — internal details leak outside the
diagnostic mode. -/
theorem c9_counterexample_message_not_generic :
    errorHandler false ⟨none, "connect ECONNREFUSED 127.0.0.1:27017", "trace"⟩
      = ⟨"connect ECONNREFUSED 127.0.0.1:27017", 500, none⟩ ∧
    "connect ECONNREFUSED 127.0.0.1:27017" ≠ "Internal Server Error" := by
  exact ⟨rfl, by decide⟩

/-- C9 (amended): an error with no status of its own is answered 500; the
body carries the message of the error itself, falling back to the generic
text only when that message is empty; the stack trace is attached exactly
in development mode and never otherwise. -/
theorem c9_unexpected_errors_500 (dev : Bool) (e : AppError)
    (hun : e.stat = none) :
    (errorHandler dev e).stat = 500 ∧
    (errorHandler dev e).message
      = (if e.message == "" then "Internal Server Error" else e.message) ∧
    (errorHandler dev e).stack = (if dev then some e.stack else none) ∧
    (errorHandler false e).stack = none := by
  refine ⟨by simp [errorHandler, hun], rfl, rfl, rfl⟩

/-- Witness for the amended C9 theorem at a concrete input. -/
theorem c9_witness :
    (errorHandler true ⟨none, "boom", "stacktrace"⟩).stat = 500 ∧
    (errorHandler true ⟨none, "boom", "stacktrace"⟩).message = "boom" ∧
    (errorHandler true ⟨none, "boom", "stacktrace"⟩).stack = some "stacktrace" ∧
    (errorHandler false ⟨none, "boom", "stacktrace"⟩).stack = none := by
  have h := c9_unexpected_errors_500 true ⟨none, "boom", "stacktrace"⟩ rfl
  exact ⟨h.1, h.2.1, h.2.2.1, h.2.2.2⟩

/-- C10: once the ownership check passes, Merge writes the body through a
single $set with no filtering at the route layer: every schema key present
in the body, addedBy included, is stored verbatim, so a PATCH body
carrying addedBy changes the owner reference of the record. -/
theorem c10_patch_set_writes_body_verbatim (cy : Int) (u : ReqUser)
    (i : ObjectId) (body : BookBody) (s : BookStore) (book : Book)
    (hu : u.idField = some book.addedBy)
    (hfind : findById s i = some book)
    (hv : validatePatchErrors cy body = []) :
    patchBook cy u (some i) body s
      = (.ok (applySet body book), findByIdAndUpdate s i (applySet body)) ∧
    (∀ v, body.addedBy = some v → (applySet body book).addedBy = v) ∧
    (∀ t, body.title = some t → (applySet body book).title = t) ∧
    (∀ a, body.author = some a → (applySet body book).author = a) ∧
    (∀ y, body.publishedYear = some y → (applySet body book).publishedYear = y) := by
  have heq : objectIdEquals book.addedBy u.idField = true := by
    simp [objectIdEquals, hu]
  refine ⟨by simp [patchBook, hv, hfind, heq], ?_, ?_, ?_, ?_⟩
  all_goals intro x hx
  all_goals simp [applySet, hx]

/-- Witness for the C10 theorem at a concrete input: an owner PATCH whose
body sets the title and a foreign addedBy, both stored verbatim. -/
theorem c10_witness :
    patchBook 2025 ⟨some 1, "alice"⟩ (some 5) ⟨some "New", none, none, some 2⟩
        [⟨5, "T", "A", 2000, 1⟩]
      = (.ok ⟨5, "New", "A", 2000, 2⟩, [⟨5, "New", "A", 2000, 2⟩]) ∧
    (⟨5, "New", "A", 2000, 2⟩ : Book).addedBy = 2 := by
  have h := c10_patch_set_writes_body_verbatim 2025 ⟨some 1, "alice"⟩ 5
      ⟨some "New", none, none, some 2⟩ [⟨5, "T", "A", 2000, 1⟩]
      ⟨5, "T", "A", 2000, 1⟩ rfl rfl rfl
  exact ⟨h.1, h.2.1 2 rfl⟩

end LibraryApi
